import Mathlib

/-
Verification development for the workout-statistics repository
(fitness tracker module: Training variants, dispatcher, formatter).

The embedding follows the final validated revision of the source
(the dataclass-based file): numbers are modelled as exact rationals ℚ,
Python float floor-division `x // y` as `⌊x / y⌋` cast back to ℚ,
and a raised ValueError as an `Except.error` carrying the error kind
(the source distinguishes the unknown-type message from the
wrong-arity message, matching the two error kinds of the design).
-/

/-- Workout record: the closed set of training variants the dispatcher
can construct.  Fields follow the source's declared order
(`action, duration, weight`, then the variant-specific fields
`height` for sports walking and `length_pool, count_pool` for swimming). -/
inductive Training where
  | running (action duration weight : ℚ)
  | sportsWalking (action duration weight height : ℚ)
  | swimming (action duration weight length_pool count_pool : ℚ)
deriving DecidableEq, Repr

/-- `M_IN_KM` class constant of the source. -/
def M_IN_KM : ℚ := 1000

/-- `MIN_IN_HOUR` class constant of the source. -/
def MIN_IN_HOUR : ℚ := 60

/-- `self.action`. -/
def Training.action : Training → ℚ
  | .running a _ _ => a
  | .sportsWalking a _ _ _ => a
  | .swimming a _ _ _ _ => a

/-- `self.duration`. -/
def Training.duration : Training → ℚ
  | .running _ d _ => d
  | .sportsWalking _ d _ _ => d
  | .swimming _ d _ _ _ => d

/-- `self.weight`. -/
def Training.weight : Training → ℚ
  | .running _ _ w => w
  | .sportsWalking _ _ w _ => w
  | .swimming _ _ w _ _ => w

/-- `LEN_STEP` class constant: 0.65 for the base (Running, SportsWalking),
overridden to 1.38 by Swimming. -/
def Training.LEN_STEP : Training → ℚ
  | .swimming _ _ _ _ _ => 138 / 100
  | _ => 65 / 100

/-- `Training.get_distance`: `self.action * self.LEN_STEP / self.M_IN_KM`. -/
def Training.get_distance (t : Training) : ℚ :=
  t.action * t.LEN_STEP / M_IN_KM

/-- `Training.get_mean_speed`: `self.get_distance() / self.duration`,
overridden by Swimming to
`self.length_pool * self.count_pool / self.M_IN_KM / self.duration`. -/
def Training.get_mean_speed (t : Training) : ℚ :=
  match t with
  | .swimming _ d _ lp cp => lp * cp / M_IN_KM / d
  | _ => t.get_distance / t.duration

/-- `get_spent_calories` of each variant (the abstract base has no
implementation and is never constructed by the dispatcher):
Running: `((18 * speed) - 20) * weight / M_IN_KM * duration * MIN_IN_HOUR`;
SportsWalking: `(0.035 * weight + (speed ** 2 // height) * 0.029 * weight)
* duration * MIN_IN_HOUR` with Python float floor-division;
Swimming: `(speed + 1.1) * 2 * weight`. -/
def Training.get_spent_calories (t : Training) : ℚ :=
  match t with
  | .running _ _ _ =>
      ((18 * t.get_mean_speed) - 20) * t.weight / M_IN_KM
        * t.duration * MIN_IN_HOUR
  | .sportsWalking _ _ _ height =>
      ((35 / 1000 * t.weight)
        + ((⌊t.get_mean_speed ^ 2 / height⌋ : ℤ) : ℚ)
          * (29 / 1000) * t.weight)
        * t.duration * MIN_IN_HOUR
  | .swimming _ _ _ _ _ =>
      (t.get_mean_speed + 11 / 10) * 2 * t.weight

/-- `self.__class__.__name__` of each variant. -/
def Training.typeName : Training → String
  | .running _ _ _ => "Running"
  | .sportsWalking _ _ _ _ => "SportsWalking"
  | .swimming _ _ _ _ _ => "Swimming"

/-- The `InfoMessage` dataclass (the derived Summary). -/
structure InfoMessage where
  training_type : String
  duration : ℚ
  distance : ℚ
  speed : ℚ
  calories : ℚ
deriving DecidableEq, Repr

/-- Round to the nearest integer, ties to even: the rounding Python's
fixed-point `format` applies to the (here exact) numeric value. -/
def roundHalfEven (q : ℚ) : ℤ :=
  let f := ⌊q⌋
  let r := q - (f : ℚ)
  if r < 1 / 2 then f
  else if 1 / 2 < r then f + 1
  else if f % 2 = 0 then f else f + 1

/-- Left-pad the fractional digits to width 3. -/
def pad3 (n : Nat) : String :=
  if n < 10 then "00" ++ toString n
  else if n < 100 then "0" ++ toString n
  else toString n

/-- Python `'\x7b:.3f\x7d'.format(q)`: fixed-point with exactly three
fractional digits, sign taken from the value. -/
def format3 (q : ℚ) : String :=
  let n := (roundHalfEven (q * 1000)).natAbs
  let sign := if q < 0 then "-" else ""
  sign ++ toString (n / 1000) ++ "." ++ pad3 (n % 1000)

/-- The `MESSAGE` class template of `InfoMessage`, split at its five
positional placeholders (six literal chunks). -/
def MESSAGE : List String :=
  ["Тип тренировки: ", "; Длительность: ", " ч.; Дистанция: ",
   " км; Ср. скорость: ", " км/ч; Потрачено ккал: ", "."]

/-- Python `str.format` with positional placeholders: interleave the
literal chunks with the rendered arguments. -/
def renderTemplate : List String → List String → String
  | [], _ => ""
  | chunk :: rest, [] => chunk ++ renderTemplate rest []
  | chunk :: rest, arg :: args => chunk ++ arg ++ renderTemplate rest args

/-- `InfoMessage.get_message`: `MESSAGE.format(training_type, duration,
distance, speed, calories)` with `.3f` on the four numeric fields. -/
def InfoMessage.get_message (m : InfoMessage) : String :=
  renderTemplate MESSAGE
    [m.training_type, format3 m.duration, format3 m.distance,
     format3 m.speed, format3 m.calories]

/-- `Training.show_training_info`: build the `InfoMessage` from the
class name, duration, distance, mean speed and calories. -/
def Training.show_training_info (t : Training) : InfoMessage :=
  ⟨t.typeName, t.duration, t.get_distance, t.get_mean_speed,
   t.get_spent_calories⟩

/-- The two error kinds the dispatcher raises (`ValueError` with the
unknown-type message resp. the wrong-parameter-count message). -/
inductive ReadError where
  | unknownWorkoutType (tag : String)
  | arityMismatch (tag : String) (expected got : Nat)
deriving DecidableEq, Repr

/-- The keys of the `TRAINING_TYPES` registry. -/
def TRAINING_TYPES : List String := ["SWM", "RUN", "WLK"]

/-- `Swimming(*data)` guarded by the source's field-count check
(`len(fields(Swimming)) = 5`). -/
def mkSwimming : List ℚ → Except ReadError Training
  | [a, d, w, lp, cp] => Except.ok (.swimming a d w lp cp)
  | data => Except.error (.arityMismatch "SWM" 5 data.length)

/-- `Running(*data)` guarded by the field-count check (3 fields). -/
def mkRunning : List ℚ → Except ReadError Training
  | [a, d, w] => Except.ok (.running a d w)
  | data => Except.error (.arityMismatch "RUN" 3 data.length)

/-- `SportsWalking(*data)` guarded by the field-count check (4 fields). -/
def mkSportsWalking : List ℚ → Except ReadError Training
  | [a, d, w, h] => Except.ok (.sportsWalking a d w h)
  | data => Except.error (.arityMismatch "WLK" 4 data.length)

/-- `read_package`: reject a tag outside `TRAINING_TYPES`, then check
the field count against the resolved variant and construct it
positionally. -/
def read_package (workout_type : String) (data : List ℚ) :
    Except ReadError Training :=
  if workout_type ∉ TRAINING_TYPES then
    Except.error (.unknownWorkoutType workout_type)
  else if workout_type = "SWM" then mkSwimming data
  else if workout_type = "RUN" then mkRunning data
  else mkSportsWalking data

/-- Processing of one input pair by the entry point: dispatch, then
`show_training_info().get_message()`; an error aborts with no output
for the pair. -/
def process (pkg : String × List ℚ) : Except ReadError String :=
  (read_package pkg.1 pkg.2).map
    fun t => t.show_training_info.get_message

/-- Modelled from the spec: the formatter template exactly as the spec's
words state it (English labels, `" h"`, `" km"`, `" km/h"`), used only to
compare the spec's stated template with the source's template. -/
def spec_get_message (m : InfoMessage) : String :=
  "Workout type: " ++ m.training_type ++ "; Duration: " ++ format3 m.duration
    ++ " h; Distance: " ++ format3 m.distance ++ " km; Mean speed: "
    ++ format3 m.speed ++ " km/h; Calories spent: " ++ format3 m.calories ++ "."

/-- State-passing embedding of `get_distance`: the method body only reads
attributes, so it returns the value together with the (unchanged) record. -/
def get_distance_state (s : Training) : ℚ × Training :=
  (s.action * s.LEN_STEP / M_IN_KM, s)

/-- State-passing embedding of `get_mean_speed` (threads the record through
the inner `get_distance` call; Swimming's override reads the pool fields). -/
def get_mean_speed_state (s : Training) : ℚ × Training :=
  match s with
  | .swimming _ d _ lp cp => (lp * cp / M_IN_KM / d, s)
  | _ =>
      let p := get_distance_state s
      (p.1 / p.2.duration, p.2)

/-- State-passing embedding of `get_spent_calories` of each variant. -/
def get_spent_calories_state (s : Training) : ℚ × Training :=
  match s with
  | .running _ _ _ =>
      let p := get_mean_speed_state s
      (((18 * p.1) - 20) * p.2.weight / M_IN_KM * p.2.duration * MIN_IN_HOUR,
       p.2)
  | .sportsWalking _ _ _ h =>
      let p := get_mean_speed_state s
      ((35 / 1000 * p.2.weight
          + ((⌊p.1 ^ 2 / h⌋ : ℤ) : ℚ) * (29 / 1000) * p.2.weight)
          * p.2.duration * MIN_IN_HOUR,
       p.2)
  | .swimming _ _ _ _ _ =>
      let p := get_mean_speed_state s
      ((p.1 + 11 / 10) * 2 * p.2.weight, p.2)

/-- State-passing embedding of `show_training_info`: evaluates the
constructor arguments left to right, threading the record. -/
def show_training_info_state (s : Training) : InfoMessage × Training :=
  let n := s.typeName
  let d := s.duration
  let pd := get_distance_state s
  let ps := get_mean_speed_state pd.2
  let pc := get_spent_calories_state ps.2
  (⟨n, d, pd.1, ps.1, pc.1⟩, pc.2)

/-- State-passing embedding of `InfoMessage.get_message`: only reads the
five fields of the message. -/
def get_message_state (m : InfoMessage) : String × InfoMessage :=
  (renderTemplate MESSAGE
    [m.training_type, format3 m.duration, format3 m.distance,
     format3 m.speed, format3 m.calories], m)

/-- Helper: `mkRunning` rejects any list whose length is not 3. -/
theorem mkRunning_arity (data : List ℚ) (h : data.length ≠ 3) :
    mkRunning data = Except.error (.arityMismatch "RUN" 3 data.length) := by
  match data, h with
  | [], _ => rfl
  | [_], _ => rfl
  | [_, _], _ => rfl
  | [_, _, _], h => exact absurd rfl h
  | _ :: _ :: _ :: _ :: _, _ => rfl

/-- Helper: `mkSportsWalking` rejects any list whose length is not 4. -/
theorem mkSportsWalking_arity (data : List ℚ) (h : data.length ≠ 4) :
    mkSportsWalking data = Except.error (.arityMismatch "WLK" 4 data.length) := by
  match data, h with
  | [], _ => rfl
  | [_], _ => rfl
  | [_, _], _ => rfl
  | [_, _, _], _ => rfl
  | [_, _, _, _], h => exact absurd rfl h
  | _ :: _ :: _ :: _ :: _ :: _, _ => rfl

/-- Helper: `mkSwimming` rejects any list whose length is not 5. -/
theorem mkSwimming_arity (data : List ℚ) (h : data.length ≠ 5) :
    mkSwimming data = Except.error (.arityMismatch "SWM" 5 data.length) := by
  match data, h with
  | [], _ => rfl
  | [_], _ => rfl
  | [_, _], _ => rfl
  | [_, _, _], _ => rfl
  | [_, _, _, _], _ => rfl
  | [_, _, _, _, _], h => exact absurd rfl h
  | _ :: _ :: _ :: _ :: _ :: _ :: _, _ => rfl

/-- Helper: `'\x7b:.3f\x7d'` rendering of 1. -/
theorem format3_one : format3 1 = "1.000" := by
  norm_num [format3, roundHalfEven, pad3]; rfl

/-- Helper: `'\x7b:.3f\x7d'` rendering of 9.75. -/
theorem format3_q39d4 : format3 (39 / 4) = "9.750" := by
  norm_num [format3, roundHalfEven, pad3]; rfl

/-- Helper: `'\x7b:.3f\x7d'` rendering of 699.75. -/
theorem format3_q2799d4 : format3 (2799 / 4) = "699.750" := by
  norm_num [format3, roundHalfEven, pad3]; rfl

/-- Helper: the fully rendered message of the Running example summary. -/
theorem message_literal_run :
    (InfoMessage.mk "Running" 1 (39 / 4) (39 / 4) (2799 / 4)).get_message
      = "Тип тренировки: Running; Длительность: 1.000 ч.; Дистанция: 9.750 км; Ср. скорость: 9.750 км/ч; Потрачено ккал: 699.750." := by
  simp only [InfoMessage.get_message, MESSAGE, format3_one, format3_q39d4,
    format3_q2799d4]
  rfl

/-- Helper: the spec's English template rendered on the same summary. -/
theorem spec_message_literal_run :
    spec_get_message (InfoMessage.mk "Running" 1 (39 / 4) (39 / 4) (2799 / 4))
      = "Workout type: Running; Duration: 1.000 h; Distance: 9.750 km; Mean speed: 9.750 km/h; Calories spent: 699.750." := by
  simp only [spec_get_message, format3_one, format3_q39d4, format3_q2799d4]
  rfl

/-- C1: for every Running record with positive duration, the spent
calories equal `((18 * mean_speed) - 20) * weight / 1000 * duration * 60`
with the shared mean speed `distance / duration`; dispatching
`("RUN", [15000, 1, 75])` yields distance 9.75 km and calories per this
formula. -/
theorem running_calories_formula (a d w : ℚ) (hd : 0 < d) :
    (Training.running a d w).get_spent_calories
      = ((18 * ((Training.running a d w).get_distance / d)) - 20)
          * w / 1000 * d * 60
  ∧ read_package "RUN" [15000, 1, 75]
      = Except.ok (Training.running 15000 1 75)
  ∧ (Training.running 15000 1 75).get_distance = 39 / 4
  ∧ (Training.running 15000 1 75).get_spent_calories
      = ((18 * (39 / 4)) - 20) * 75 / 1000 * 1 * 60 := by
  refine ⟨rfl, rfl, ?_, ?_⟩
  · norm_num [Training.get_distance, Training.LEN_STEP, Training.action,
      M_IN_KM]
  · norm_num [Training.get_spent_calories, Training.get_mean_speed,
      Training.get_distance, Training.LEN_STEP, Training.action,
      Training.duration, Training.weight, M_IN_KM, MIN_IN_HOUR]

/-- Witness for C1 at duration 1. -/
theorem running_calories_formula_witness :
    (0 : ℚ) < 1
  ∧ read_package "RUN" [15000, 1, 75]
      = Except.ok (Training.running 15000 1 75) :=
  ⟨by norm_num, (running_calories_formula 15000 1 75 (by norm_num)).2.1⟩

/-- C2: for every Swimming record with positive duration, the mean speed
is `length_pool * count_pool / 1000 / duration` (overriding the shared
definition) and the calories are `(mean_speed + 1.1) * 2 * weight`;
dispatching `("SWM", [720, 1, 80, 25, 40])` yields mean speed 1.0 and
calories 336.0. -/
theorem swimming_speed_and_calories (a d w lp cp : ℚ) (hd : 0 < d) :
    (Training.swimming a d w lp cp).get_mean_speed = lp * cp / 1000 / d
  ∧ (Training.swimming a d w lp cp).get_spent_calories
      = ((Training.swimming a d w lp cp).get_mean_speed + 11 / 10) * 2 * w
  ∧ read_package "SWM" [720, 1, 80, 25, 40]
      = Except.ok (Training.swimming 720 1 80 25 40)
  ∧ (Training.swimming 720 1 80 25 40).get_mean_speed = 1
  ∧ (Training.swimming 720 1 80 25 40).get_spent_calories = 336 := by
  refine ⟨rfl, rfl, rfl, ?_, ?_⟩
  · norm_num [Training.get_mean_speed, M_IN_KM]
  · norm_num [Training.get_spent_calories, Training.get_mean_speed,
      Training.weight, M_IN_KM]

/-- Witness for C2 at duration 1. -/
theorem swimming_speed_and_calories_witness :
    (0 : ℚ) < 1
  ∧ (Training.swimming 720 1 80 25 40).get_mean_speed = 1 :=
  ⟨by norm_num, (swimming_speed_and_calories 720 1 80 25 40 (by norm_num)).2.2.2.1⟩

/-- C3: for every SportsWalking record with positive duration and nonzero
height, the spent calories equal `(0.035 * weight + (speed^2
floor-divided by height) * 0.029 * weight) * duration * 60`, the inner
term using floor division; dispatching `("WLK", [9000, 1, 75, 180])`
yields distance 5.85 km, mean speed 5.85 km/h, and the floor term there
is 0 (true division would give 38019/200000 ≠ 0), so calories are 157.5. -/
theorem walking_calories_floor_div (a d w h : ℚ) (hd : 0 < d) (hh : h ≠ 0) :
    (Training.sportsWalking a d w h).get_spent_calories
      = (35 / 1000 * w
          + ((⌊(Training.sportsWalking a d w h).get_mean_speed ^ 2 / h⌋ : ℤ) : ℚ)
            * (29 / 1000) * w) * d * 60
  ∧ read_package "WLK" [9000, 1, 75, 180]
      = Except.ok (Training.sportsWalking 9000 1 75 180)
  ∧ (Training.sportsWalking 9000 1 75 180).get_distance = 585 / 100
  ∧ (Training.sportsWalking 9000 1 75 180).get_mean_speed = 585 / 100
  ∧ (⌊(Training.sportsWalking 9000 1 75 180).get_mean_speed ^ 2 / 180⌋ : ℤ) = 0
  ∧ (Training.sportsWalking 9000 1 75 180).get_spent_calories = 315 / 2 := by
  refine ⟨rfl, rfl, ?_, ?_, ?_, ?_⟩
  · norm_num [Training.get_distance, Training.LEN_STEP, Training.action,
      M_IN_KM]
  · norm_num [Training.get_mean_speed, Training.get_distance,
      Training.LEN_STEP, Training.action, Training.duration, M_IN_KM]
  · norm_num [Training.get_mean_speed, Training.get_distance,
      Training.LEN_STEP, Training.action, Training.duration, M_IN_KM,
      Int.floor_eq_zero_iff, Set.mem_Ico]
  · norm_num [Training.get_spent_calories, Training.get_mean_speed,
      Training.get_distance, Training.LEN_STEP, Training.action,
      Training.duration, Training.weight, M_IN_KM, MIN_IN_HOUR]

/-- Witness for C3 at duration 1, height 180. -/
theorem walking_calories_floor_div_witness :
    ((0 : ℚ) < 1 ∧ (180 : ℚ) ≠ 0)
  ∧ (Training.sportsWalking 9000 1 75 180).get_distance = 585 / 100 :=
  ⟨⟨by norm_num, by norm_num⟩,
   (walking_calories_floor_div 9000 1 75 180 (by norm_num) (by norm_num)).2.2.1⟩

/-- C4: distance is `action * step_length / 1000` with step length 0.65
for Running and SportsWalking and 1.38 for Swimming; in particular
Running's distance equals `action * 0.00065` exactly (rationals). -/
theorem distance_per_variant (a d w h lp cp : ℚ) (hd : 0 < d) :
    (Training.running a d w).get_distance = a * (65 / 100) / 1000
  ∧ (Training.sportsWalking a d w h).get_distance = a * (65 / 100) / 1000
  ∧ (Training.swimming a d w lp cp).get_distance = a * (138 / 100) / 1000
  ∧ (Training.running a d w).get_distance = a * (65 / 100000) := by
  refine ⟨rfl, rfl, rfl, ?_⟩
  simp only [Training.get_distance, Training.LEN_STEP, Training.action,
    M_IN_KM]
  ring

/-- Witness for C4 at duration 1. -/
theorem distance_per_variant_witness :
    (0 : ℚ) < 1
  ∧ (Training.running 2 1 1).get_distance = 2 * (65 / 100000) :=
  ⟨by norm_num, (distance_per_variant 2 1 1 1 1 1 (by norm_num)).2.2.2⟩

/-- C5: for every input pair whose tag is not in the registered set, the
dispatcher fails with the unknown-workout-type error, no record is
constructed, and processing the pair produces no output message. -/
theorem unknown_tag_rejected (tag : String) (data : List ℚ)
    (h : tag ∉ TRAINING_TYPES) :
    read_package tag data = Except.error (.unknownWorkoutType tag)
  ∧ process (tag, data) = Except.error (.unknownWorkoutType tag) := by
  have h1 : read_package tag data = Except.error (.unknownWorkoutType tag) := by
    simp [read_package, h]
  exact ⟨h1, by simp [process, h1, Except.map]⟩

/-- Witness for C5 at tag "XYZ". -/
theorem unknown_tag_rejected_witness :
    "XYZ" ∉ TRAINING_TYPES
  ∧ read_package "XYZ" [1, 2, 3]
      = Except.error (.unknownWorkoutType "XYZ") :=
  ⟨by decide, (unknown_tag_rejected "XYZ" [1, 2, 3] (by decide)).1⟩

/-- C6: for every registered tag whose data list length differs from the
variant's expected field count (3 for Running, 4 for SportsWalking, 5
for Swimming), the dispatcher fails with the arity-mismatch error; in
particular `("RUN", [100, 1])` fails this way. -/
theorem wrong_arity_rejected (d3 d4 d5 : List ℚ)
    (h3 : d3.length ≠ 3) (h4 : d4.length ≠ 4) (h5 : d5.length ≠ 5) :
    read_package "RUN" d3 = Except.error (.arityMismatch "RUN" 3 d3.length)
  ∧ read_package "WLK" d4 = Except.error (.arityMismatch "WLK" 4 d4.length)
  ∧ read_package "SWM" d5 = Except.error (.arityMismatch "SWM" 5 d5.length)
  ∧ read_package "RUN" [100, 1]
      = Except.error (.arityMismatch "RUN" 3 2) := by
  refine ⟨?_, ?_, ?_, rfl⟩
  · simp [read_package, TRAINING_TYPES, mkRunning_arity d3 h3]
  · simp [read_package, TRAINING_TYPES, mkSportsWalking_arity d4 h4]
  · simp [read_package, TRAINING_TYPES, mkSwimming_arity d5 h5]

/-- Witness for C6 on lists of length 2, 0 and 1. -/
theorem wrong_arity_rejected_witness :
    (([(100 : ℚ), 1].length ≠ 3) ∧ (([] : List ℚ).length ≠ 4)
      ∧ ([(1 : ℚ)].length ≠ 5))
  ∧ read_package "RUN" [100, 1]
      = Except.error (.arityMismatch "RUN" 3 2) :=
  ⟨⟨by decide, by decide, by decide⟩,
   (wrong_arity_rejected [100, 1] [] [1]
      (by decide) (by decide) (by decide)).2.2.2⟩

/-- C7 counterexample: the source renders the Russian `MESSAGE` template,
not the English template the claim quotes — at the concrete summary of
the Running example the two strings differ. -/
theorem message_differs_from_spec_template :
    (InfoMessage.mk "Running" 1 (39 / 4) (39 / 4) (2799 / 4)).get_message
      ≠ spec_get_message
          (InfoMessage.mk "Running" 1 (39 / 4) (39 / 4) (2799 / 4)) := by
  rw [message_literal_run, spec_message_literal_run]
  decide

/-- C7 (amended): for every Summary, the formatter produces a single
string with fixed field order (type label, duration, distance, mean
speed, calories) and fixed 3-decimal formatting for all four numeric
fields, matching the source's template "Тип тренировки: ...;
Длительность: ... ч.; Дистанция: ... км; Ср. скорость: ... км/ч;
Потрачено ккал: ... ." (the spec's quoted English literals differ from
the source's Russian ones); the label is the variant's type name. -/
theorem message_matches_source_template (m : InfoMessage) (t : Training) :
    m.get_message
      = "Тип тренировки: " ++ m.training_type
          ++ "; Длительность: " ++ format3 m.duration
          ++ " ч.; Дистанция: " ++ format3 m.distance
          ++ " км; Ср. скорость: " ++ format3 m.speed
          ++ " км/ч; Потрачено ккал: " ++ format3 m.calories ++ "."
  ∧ t.show_training_info.training_type = t.typeName := by
  constructor
  · simp [InfoMessage.get_message, MESSAGE, renderTemplate,
      String.append_empty, String.append_assoc]
  · rfl

/-- C8: Swimming's mean speed and calories are independent of
`action_count`: two Swimming records agreeing on everything but the
action count produce identical values. -/
theorem swimming_ignores_action_count (a a' d w lp cp : ℚ) :
    (Training.swimming a d w lp cp).get_mean_speed
      = (Training.swimming a' d w lp cp).get_mean_speed
  ∧ (Training.swimming a d w lp cp).get_spent_calories
      = (Training.swimming a' d w lp cp).get_spent_calories :=
  ⟨rfl, rfl⟩

/-- C9: for every registered tag with the correct field count the
dispatcher constructs the corresponding variant positionally in declared
field order, and every successfully returned record is an instance of
exactly one of the three registered variants (never the abstract base). -/
theorem dispatch_constructs_positionally (a d w h lp cp : ℚ) :
    read_package "RUN" [a, d, w] = Except.ok (Training.running a d w)
  ∧ read_package "WLK" [a, d, w, h]
      = Except.ok (Training.sportsWalking a d w h)
  ∧ read_package "SWM" [a, d, w, lp, cp]
      = Except.ok (Training.swimming a d w lp cp)
  ∧ ∀ (tag : String) (data : List ℚ) (t : Training),
      read_package tag data = Except.ok t →
        (∃ x y z, t = Training.running x y z)
        ∨ (∃ x y z u, t = Training.sportsWalking x y z u)
        ∨ (∃ x y z u v, t = Training.swimming x y z u v) := by
  refine ⟨rfl, rfl, rfl, ?_⟩
  rintro tag data t -
  cases t with
  | running x y z => exact Or.inl ⟨x, y, z, rfl⟩
  | sportsWalking x y z u => exact Or.inr (Or.inl ⟨x, y, z, u, rfl⟩)
  | swimming x y z u v => exact Or.inr (Or.inr ⟨x, y, z, u, v, rfl⟩)

/-- Witness for C9 at a concrete dispatch. -/
theorem dispatch_constructs_positionally_witness :
    read_package "RUN" [1, 2, 3] = Except.ok (Training.running 1 2 3)
  ∧ ((∃ x y z, Training.running 1 2 3 = Training.running x y z)
      ∨ (∃ x y z u, Training.running 1 2 3 = Training.sportsWalking x y z u)
      ∨ (∃ x y z u v, Training.running 1 2 3 = Training.swimming x y z u v)) :=
  ⟨(dispatch_constructs_positionally 1 2 3 4 5 6).1,
   (dispatch_constructs_positionally 1 2 3 4 5 6).2.2.2 "RUN" [1, 2, 3]
     (Training.running 1 2 3)
     (dispatch_constructs_positionally 1 2 3 4 5 6).1⟩

/-- C10: every observation is pure: in the state-passing embedding of the
method bodies each observation returns the record (and message)
unchanged, a repeated call returns the same value, and the returned
value agrees with the pure function of the record's fields. -/
theorem observations_pure_and_frame (t : Training) (m : InfoMessage) :
    ((get_distance_state t).2 = t
      ∧ (get_mean_speed_state t).2 = t
      ∧ (get_spent_calories_state t).2 = t
      ∧ (show_training_info_state t).2 = t
      ∧ (get_message_state m).2 = m)
  ∧ ((get_distance_state (get_distance_state t).2).1
        = (get_distance_state t).1
      ∧ (get_mean_speed_state (get_mean_speed_state t).2).1
          = (get_mean_speed_state t).1
      ∧ (get_spent_calories_state (get_spent_calories_state t).2).1
          = (get_spent_calories_state t).1
      ∧ (show_training_info_state (show_training_info_state t).2).1
          = (show_training_info_state t).1
      ∧ (get_message_state (get_message_state m).2).1
          = (get_message_state m).1)
  ∧ ((get_distance_state t).1 = t.get_distance
      ∧ (get_mean_speed_state t).1 = t.get_mean_speed
      ∧ (get_spent_calories_state t).1 = t.get_spent_calories
      ∧ (show_training_info_state t).1 = t.show_training_info
      ∧ (get_message_state m).1 = m.get_message) := by
  cases t <;>
    exact ⟨⟨rfl, rfl, rfl, rfl, rfl⟩, ⟨rfl, rfl, rfl, rfl, rfl⟩,
      ⟨rfl, rfl, rfl, rfl, rfl⟩⟩
